import Mathlib

/-!
Verification development for the RAG chatbot's tool-calling core:
the retrieval tools and tool registry (`backend/search_tools.py`) and the
dialogue orchestrator (`backend/ai_generator.py`), embedded shallowly.
Python's mutable tool state (`last_sources`) is threaded explicitly, and
Python truthiness tests (`if x:`) are modelled by explicit truthiness
helpers on `Option` values.
-/

namespace RagCore

/-- Truthiness of an optional string, as Python's `if s:`: `None` and the
empty string are falsy. -/
def strTruthy : Option String → Bool
  | none => false
  | some s => !s.isEmpty

/-- Truthiness of an optional integer, as Python's `if n:`: `None` and `0`
are falsy. -/
def intTruthy : Option Int → Bool
  | none => false
  | some n => !(n == 0)

/-- A structured source citation `{"text": ..., "link": ...}` as built by the
tools in `search_tools.py` (the dict literal at `search_tools.py:109-112`). -/
structure Source where
  text : String
  link : Option String
deriving DecidableEq

/-- One chunk's metadata mapping, as read by
`CourseSearchTool._format_results`: `meta.get('course_title', 'unknown')`
and `meta.get('lesson_number')`. A missing key is `none`. -/
structure ChunkMeta where
  course_title : Option String
  lesson_number : Option Int
deriving DecidableEq

/-- Modelled from the spec: `SearchResults` lives in `backend/vector_store.py`,
which is not among the staged source files. Per spec section 3
(SearchResultSet) and the repository's tests
(`tests/test_vector_store.py`): parallel `documents`/`metadata`/`distances`
sequences plus an optional `error` message. Distances are numeric scores the
core never inspects beyond emptiness; they are carried opaquely as integers. -/
structure SearchResults where
  documents : List String
  metadata : List ChunkMeta
  distances : List Int
  error : Option String
deriving DecidableEq

/-- Modelled from the spec: `SearchResults.is_empty` returns whether the
document list is empty (`tests/test_vector_store.py:47-53` pins this:
`SearchResults([], [], [], None).is_empty()` and a one-document result is
not empty). -/
def SearchResults.is_empty (r : SearchResults) : Bool :=
  r.documents.isEmpty

/-- A lesson entry of the catalog's `lessons_json`, as read by
`CourseOutlineTool._format_outline`: `lesson.get('lesson_number')`,
`lesson.get('lesson_title')`, `lesson.get('lesson_link')`. -/
structure LessonEntry where
  lesson_number : Option Int
  lesson_title : Option String
  lesson_link : Option String
deriving DecidableEq

/-- A course-catalog metadata mapping as read by `CourseOutlineTool`:
`title` (defaulted to "Unknown Course"), optional `instructor` and
`course_link`, the `lessons_json` field (absent or empty string → `none`;
present but unparseable JSON → `Except.error ()`; parseable → the parsed
lesson list), and `lesson_count` (defaulted to 0). -/
structure CatalogMeta where
  title : Option String
  instructor : Option String
  course_link : Option String
  lessons_json : Option (Except Unit (List LessonEntry))
  lesson_count : Option Int

/-- Modelled from the spec: the vector store (`backend/vector_store.py` is
not among the staged sources) is the black-box similarity-search provider of
spec sections 2 and 6. Its four entry points used by the tool layer:
`search(query, course_name, lesson_number)`, `get_lesson_link(title, n)`,
`_resolve_course_name(partial)`, and the catalog fetch
`course_catalog.get(ids=[title])`. The catalog fetch models a raised
exception as `Except.error msg`, and a missing/empty `metadatas` payload as
`Except.ok none`. -/
structure VectorStore where
  search : String → Option String → Option Int → SearchResults
  get_lesson_link : String → Int → Option String
  resolve_course_name : String → Option String
  catalog_get : String → Except String (Option CatalogMeta)

/-- Shows an optional integer the way Python's f-string shows the value of
`meta.get(...)`: `None` prints as "None". -/
def showOptInt : Option Int → String
  | none => "None"
  | some n => toString n

/-- Shows an optional string the way Python's f-string does. -/
def showOptStr : Option String → String
  | none => "None"
  | some s => s

/-- `CourseSearchTool._format_results` (`search_tools.py:88-124`): renders
each (document, metadata) pair as a `[course - Lesson n]` header plus the
document, collects one source per pair, joins blocks with blank lines, and
overwrites the tool's stored sources. Returns (formatted text, new
`last_sources`). -/
def CourseSearchTool.format_results (store : VectorStore) (results : SearchResults) :
    String × List Source :=
  let pairs := results.documents.zip results.metadata
  let rendered := pairs.map (fun p =>
    let course_title := p.2.course_title.getD "unknown"
    let lesson_num := p.2.lesson_number
    let header := "[" ++ course_title ++
      (match lesson_num with
        | some n => " - Lesson " ++ toString n
        | none => "") ++ "]"
    let source_text := course_title ++
      (match lesson_num with
        | some n => " - Lesson " ++ toString n
        | none => "")
    let link := match lesson_num with
      | some n => store.get_lesson_link course_title n
      | none => none
    (header ++ "\n" ++ p.1, ({ text := source_text, link := link } : Source)))
  (String.intercalate "\n\n" (rendered.map (·.1)), rendered.map (·.2))

/-- `CourseSearchTool.execute` (`search_tools.py:52-86`): runs the store's
unified search, returns a provider error verbatim, synthesizes the
"No relevant content found" message on empty results (appending the course
and lesson filters when truthy), and otherwise formats the results. The
tool's mutable `last_sources` is threaded: the second component is its value
after the call. -/
def CourseSearchTool.execute (store : VectorStore) (last_sources : List Source)
    (query : String) (course_name : Option String) (lesson_number : Option Int) :
    String × List Source :=
  let results := store.search query course_name lesson_number
  if strTruthy results.error then
    (results.error.getD "", last_sources)
  else if results.is_empty then
    let filter_info :=
      (if strTruthy course_name then
        " in course '" ++ course_name.getD "" ++ "'"
      else "") ++
      (if intTruthy lesson_number then
        " in lesson " ++ toString (lesson_number.getD 0)
      else "")
    ("No relevant content found" ++ filter_info ++ ".", last_sources)
  else
    CourseSearchTool.format_results store results

/-- `CourseOutlineTool._format_outline` (`search_tools.py:185-226`): renders
the catalog metadata into the markdown outline, line by line, joined with
newlines. -/
def CourseOutlineTool.format_outline (m : CatalogMeta) : String :=
  let title := m.title.getD "Unknown Course"
  let lesson_count := m.lesson_count.getD 0
  let outline :=
    ["**Course:** " ++ title] ++
    (if strTruthy m.instructor then
      ["**Instructor:** " ++ m.instructor.getD ""]
    else []) ++
    (if strTruthy m.course_link then
      ["**Course Link:** " ++ m.course_link.getD ""]
    else []) ++
    [""] ++
    ["**Course Outline** (" ++ toString lesson_count ++ " lessons):"] ++
    [""] ++
    (match m.lessons_json with
      | some (Except.ok lessons) =>
        lessons.flatMap (fun l =>
          ["**Lesson " ++ showOptInt l.lesson_number ++ ":** " ++
            showOptStr l.lesson_title] ++
          (if strTruthy l.lesson_link then ["↳ " ++ l.lesson_link.getD ""] else []) ++
          [""])
      | some (Except.error _) => ["Error: Unable to parse lesson information"]
      | none => ["No lesson information available"])
  String.intercalate "\n" outline

/-- `CourseOutlineTool.execute` (`search_tools.py:151-183`): resolves the
fuzzy course name, returns the "No course found matching" message on a miss,
fetches catalog metadata (converting a raised exception into the
"Error retrieving course outline" message and a missing payload into the
"found but metadata is missing" message), renders the outline and overwrites
the tool's `last_sources` with one entry. The mutable `last_sources` is
threaded as in `CourseSearchTool.execute`. -/
def CourseOutlineTool.execute (store : VectorStore) (last_sources : List Source)
    (course_name : String) : String × List Source :=
  let course_title? := store.resolve_course_name course_name
  if !strTruthy course_title? then
    ("No course found matching '" ++ course_name ++ "'", last_sources)
  else
    let course_title := course_title?.getD ""
    match store.catalog_get course_title with
    | Except.error e =>
      ("Error retrieving course outline: " ++ e, last_sources)
    | Except.ok none =>
      ("Course '" ++ course_title ++ "' found but metadata is missing", last_sources)
    | Except.ok (some metadata) =>
      let formatted_outline := CourseOutlineTool.format_outline metadata
      let new_sources :=
        if strTruthy metadata.course_link then
          [({ text := course_title, link := metadata.course_link } : Source)]
        else
          [({ text := course_title, link := none } : Source)]
      (formatted_outline, new_sources)

/-- An Anthropic tool definition as the registry reads it: a dict whose
`"name"` key may be absent (`tool_def.get("name")` in
`ToolManager.register_tool`), the remaining schema carried opaquely. -/
structure ToolDef where
  name : Option String
  schema : String
deriving DecidableEq

/-- A tool as `ToolManager` sees it (the `Tool` ABC of `search_tools.py`
plus the `last_sources` protocol both concrete tools follow): a definition,
a pure execution function over an argument payload `α` returning the output
string and — when the execution overwrites the tool's `last_sources` — the
new source list (`none` models an execution path that leaves `last_sources`
untouched, e.g. `CourseSearchTool`'s error and empty-result paths), and the
current `last_sources` value. -/
structure SimTool (α : Type) where
  definition : ToolDef
  run : α → String × Option (List Source)
  last_sources : List Source

/-- Insertion into a Python dict rendered as an insertion-ordered
association list: an existing key keeps its position and gets the new value,
a new key is appended. -/
def dictInsert {α : Type} : List (String × SimTool α) → String → SimTool α →
    List (String × SimTool α)
  | [], n, t => [(n, t)]
  | (k, v) :: rest, n, t =>
    if k = n then (k, t) :: rest else (k, v) :: dictInsert rest n t

/-- Lookup in the ordered association list (`self.tools[name]` /
`name in self.tools`). -/
def lookupTool {α : Type} : List (String × SimTool α) → String → Option (SimTool α)
  | [], _ => none
  | (k, v) :: rest, n => if k = n then some v else lookupTool rest n

/-- Replaces the value stored under a key, keeping order (models the tool
object mutating its own `last_sources` in place while the dict is
unchanged). -/
def updateTool {α : Type} : List (String × SimTool α) → String → SimTool α →
    List (String × SimTool α)
  | [], _, _ => []
  | (k, v) :: rest, n, t =>
    if k = n then (k, t) :: rest else (k, v) :: updateTool rest n t

/-- `ToolManager` (`search_tools.py:229-270`): its `tools` dict as an
insertion-ordered association list. -/
structure ToolManager (α : Type) where
  tools : List (String × SimTool α)

/-- `ToolManager.register_tool`: reads the definition's name, raises
`ValueError` (modelled as `Except.error`) when the name is missing or empty
(Python's `if not tool_name:`), and otherwise stores the tool under that
name, silently replacing any previous holder. -/
def ToolManager.register_tool {α : Type} (m : ToolManager α) (t : SimTool α) :
    Except String (ToolManager α) :=
  match t.definition.name with
  | none => Except.error "Tool must have a name in its definition"
  | some n =>
    if n.isEmpty then Except.error "Tool must have a name in its definition"
    else Except.ok ⟨dictInsert m.tools n t⟩

/-- `ToolManager.get_tool_definitions`: the definitions of the registered
tools in dict order. -/
def ToolManager.get_tool_definitions {α : Type} (m : ToolManager α) : List ToolDef :=
  m.tools.map (fun p => p.2.definition)

/-- `ToolManager.execute_tool`: the "Tool not found" string for an
unregistered name, otherwise the tool's execution; the executed tool's
`last_sources` is overwritten when its run says so. Returns (output,
manager afterwards). -/
def ToolManager.execute_tool {α : Type} (m : ToolManager α) (tool_name : String)
    (args : α) : String × ToolManager α :=
  match lookupTool m.tools tool_name with
  | none => ("Tool '" ++ tool_name ++ "' not found", m)
  | some t =>
    let out := t.run args
    (out.1, ⟨updateTool m.tools tool_name
      { t with last_sources := out.2.getD t.last_sources }⟩)

/-- The scan of `ToolManager.get_last_sources`: the first registered tool
whose `last_sources` is truthy (non-empty), in dict order. -/
def getFirstSources {α : Type} : List (String × SimTool α) → List Source
  | [] => []
  | (_, t) :: rest =>
    if t.last_sources.isEmpty then getFirstSources rest else t.last_sources

/-- `ToolManager.get_last_sources`. -/
def ToolManager.get_last_sources {α : Type} (m : ToolManager α) : List Source :=
  getFirstSources m.tools

/-- `ToolManager.reset_sources`: sets every registered tool's `last_sources`
to the empty list. -/
def ToolManager.reset_sources {α : Type} (m : ToolManager α) : ToolManager α :=
  ⟨m.tools.map (fun p => (p.1, { p.2 with last_sources := [] }))⟩


/-- Argument payload of a tool-use block (`content_block.input`), a JSON-ish
mapping passed through the orchestrator untouched and splatted into
`execute_tool`. -/
abbrev ToolInput := List (String × String)

/-- A block of a model response's `content`: a text block or a tool-use
request carrying its correlation `id`, tool `name` and `input`. -/
inductive ContentBlock where
  | text (s : String)
  | tool_use (id : String) (name : String) (input : ToolInput)
deriving DecidableEq

/-- One `{"type": "tool_result", "tool_use_id": ..., "content": ...}` entry
as built in `_execute_tool_loop`. -/
structure ToolResultEntry where
  tool_use_id : String
  content : String
deriving DecidableEq

/-- The content of a transcript message: the plain user query, the model's
content blocks appended verbatim, or a round's list of tool results. -/
inductive MessageContent where
  | text (s : String)
  | blocks (bs : List ContentBlock)
  | tool_results (rs : List ToolResultEntry)
deriving DecidableEq

/-- A transcript message `{"role": ..., "content": ...}`. -/
structure Message where
  role : String
  content : MessageContent
deriving DecidableEq

/-- The keyword arguments of one `client.messages.create(**params)` call:
the pre-built base parameters (`model`, `temperature`, `max_tokens`) plus
`messages`, `system`, and — only when attached — `tools` and `tool_choice`
(the code always attaches the two together, with
`tool_choice = {"type": "auto"}`). -/
structure ApiParams where
  model : String
  temperature : Nat
  max_tokens : Nat
  messages : List Message
  system : String
  tools : Option (List ToolDef)
  tool_choice : Option String
deriving DecidableEq

/-- A model-provider response: its `stop_reason` and ordered `content`. -/
structure ModelResponse where
  stop_reason : String
  content : List ContentBlock
deriving DecidableEq

/-- The static system prompt `AIGenerator.SYSTEM_PROMPT`, verbatim. -/
def SYSTEM_PROMPT : String :=
  "You are an AI assistant specialized in course materials and educational content with access to tools for searching and exploring courses.

Available Tools:
1. search_course_content - Use for finding specific information, concepts, or answers within course materials
   - When users ask WHAT, HOW, or WHY questions about course topics
   - When users need detailed explanations or examples from lessons
   - Example queries: \"How do I use prompt caching?\", \"What is tool use?\", \"Explain computer use\"

2. get_course_outline - Use for getting course structure, lesson lists, or navigation
   - When users ask WHICH lessons, WHAT topics covered, or course STRUCTURE
   - When users want to see the table of contents or lesson overview
   - Example queries: \"What lessons are in this course?\", \"Show me the course outline\", \"What topics does the MCP course cover?\"
   - **IMPORTANT**: When using this tool, present the EXACT formatted output including ALL links - do not rewrite or synthesize

Tool Usage Rules:
- **You can make up to 2 sequential tool calls** to gather necessary information
- Use multiple calls when: comparing courses, following up on results, or building multi-part answers
- Choose the most appropriate tool(s) based on user intent
- For search_course_content: Synthesize results into accurate, fact-based responses
- For get_course_outline: Present the EXACT tool output preserving all formatting and links
- If a tool yields no results, you may try a different search or state this clearly

Sequential Tool Strategy:
- **Round 1**: Gather initial information or explore course structure
- **Round 2**: Refine search, compare results, or get additional context
- **After round 2**: Provide your final answer based on all gathered information
- Example flow: get_course_outline to find lesson topic → search_course_content with that topic

Response Protocol:
- **General knowledge questions**: Answer using existing knowledge without tools
- **Course-specific questions**: Use appropriate tool(s) first, then answer
- **Complex queries**: Use multiple tool calls to gather complete information
- **No meta-commentary**:
  - Provide direct answers only — no reasoning process, tool explanations, or question-type analysis
  - Do not mention \"based on the search results\" or \"I used the outline tool\"
  - Do not narrate your tool usage strategy

All responses must be:
1. **Brief, Concise and focused** - Get to the point quickly
2. **Educational** - Maintain instructional value
3. **Clear** - Use accessible language
4. **Example-supported** - Include relevant examples when they aid understanding
Provide only the direct answer to what was asked.
"

/-- `AIGenerator`: the configured model name and the provider client,
modelled as a function from call parameters to the response
(`self.client.messages.create`). -/
structure AIGenerator where
  model : String
  client : ApiParams → ModelResponse

/-- Builds one call's parameter set from `self.base_params` (model,
temperature 0, max_tokens 800) plus messages, system text, and the
optionally attached tools; `tool_choice` is `{"type": "auto"}` exactly when
tools are attached. -/
def mkApiParams (g : AIGenerator) (msgs : List Message) (system : String)
    (tls : Option (List ToolDef)) : ApiParams :=
  { model := g.model, temperature := 0, max_tokens := 800,
    messages := msgs, system := system,
    tools := tls, tool_choice := tls.map (fun _ => "auto") }

/-- Python's `response.content[0].text`: an empty content list raises
`IndexError`, a leading tool-use block raises `AttributeError`; either is an
uncaught exception, modelled as `Except.error`. -/
def firstText : List ContentBlock → Except String String
  | [] => Except.error "IndexError"
  | ContentBlock.text s :: _ => Except.ok s
  | ContentBlock.tool_use _ _ _ :: _ => Except.error "AttributeError"

/-- The loop's `any(block.type == "tool_use" for block in content)`. -/
def hasToolUse (bs : List ContentBlock) : Bool :=
  bs.any (fun b => match b with
    | ContentBlock.tool_use _ _ _ => true
    | _ => false)

/-- A tool-use block's fields, for stating ordering properties. -/
structure ToolUseBlock where
  id : String
  name : String
  input : ToolInput
deriving DecidableEq

/-- The tool-use blocks of a response content, in order. -/
def toolUses : List ContentBlock → List ToolUseBlock
  | [] => []
  | ContentBlock.text _ :: rest => toolUses rest
  | ContentBlock.tool_use i n a :: rest => ⟨i, n, a⟩ :: toolUses rest

/-- Whether an execution outcome is a normal return. -/
def exceptIsOk : Except String String → Bool
  | Except.ok _ => true
  | Except.error _ => false

/-- The returned text of a successful execution (junk on an exception). -/
def okText : Except String String → String
  | Except.ok s => s
  | Except.error _ => ""

/-- The round body's `for content_block in current_response.content:` loop
over one response: executes each tool-use block in order via
`tool_manager.execute_tool(name, **input)`; an exception aborts the whole
query. Returns the `execute_tool` invocations actually made (the failing one
included) and either the raised message or the collected
`tool_results` list. -/
def runTools (ex : String → ToolInput → Except String String) :
    List ContentBlock → List (String × ToolInput) × Except String (List ToolResultEntry)
  | [] => ([], Except.ok [])
  | ContentBlock.text _ :: rest => runTools ex rest
  | ContentBlock.tool_use id name input :: rest =>
    match ex name input with
    | Except.error e => ([(name, input)], Except.error e)
    | Except.ok out =>
      let tail := runTools ex rest
      ((name, input) :: tail.1,
        match tail.2 with
        | Except.error e => Except.error e
        | Except.ok rs => Except.ok (⟨id, out⟩ :: rs))

/-- What one run of the tool loop produced: the final result (`Except.error`
only for an uncaught Python exception), the provider calls the loop itself
issued (in order), and the `execute_tool` invocations made (in order). -/
structure LoopOut where
  result : Except String String
  calls : List ApiParams
  tool_calls : List (String × ToolInput)

/-- The `while current_round < max_rounds:` loop of `_execute_tool_loop`,
with `fuel = max_rounds - current_round` as the recursion measure (the body
increments `current_round` first, so a body entered with remaining fuel
`f + 1` runs round `max_rounds - f`, and its `include_tools =
current_round < max_rounds` is `0 < f`). Exits by exhausted fuel or by a
response with no tool-use block, returning
`current_response.content[0].text`; a tool exception returns the
"Tool execution failed" text at once, with no further provider call. -/
def toolLoopAux (g : AIGenerator) (ex : String → ToolInput → Except String String)
    (tools : List ToolDef) (system : String) :
    Nat → List Message → ModelResponse → LoopOut
  | 0, _, r => ⟨firstText r.content, [], []⟩
  | fuel + 1, messages, r =>
    if hasToolUse r.content then
      let messages1 := messages ++ [⟨"assistant", MessageContent.blocks r.content⟩]
      let ran := runTools ex r.content
      match ran.2 with
      | Except.error e =>
        ⟨Except.ok ("Tool execution failed: " ++ e), [], ran.1⟩
      | Except.ok tool_results =>
        let messages2 := messages1 ++
          (if tool_results.isEmpty then []
           else [⟨"user", MessageContent.tool_results tool_results⟩])
        let include_tools := decide (0 < fuel)
        let next_params := mkApiParams g messages2 system
          (if include_tools && !tools.isEmpty then some tools else none)
        let r2 := g.client next_params
        let rest := toolLoopAux g ex tools system fuel messages2 r2
        ⟨rest.result, next_params :: rest.calls, ran.1 ++ rest.tool_calls⟩
    else
      ⟨firstText r.content, [], []⟩

/-- `AIGenerator._execute_tool_loop` (`ai_generator.py:110-190`): copies the
initial messages, reads the tools off the initial call's parameters
(`base_params.get("tools", [])`), and runs up to `max_rounds = 2` rounds. -/
def AIGenerator.execute_tool_loop (g : AIGenerator)
    (ex : String → ToolInput → Except String String)
    (initial_response : ModelResponse) (base_params : ApiParams) : LoopOut :=
  toolLoopAux g ex (base_params.tools.getD []) base_params.system
    2 base_params.messages initial_response

/-- What one full `generate_response` run produced: result, every provider
call in order (the initial call included), and every `execute_tool`
invocation in order. -/
structure RunTrace where
  result : Except String String
  calls : List ApiParams
  tool_calls : List (String × ToolInput)

/-- The initial call's parameter set as `generate_response` builds it: the
system prompt (with the rendered previous-conversation section when the
history string is truthy), the user query as the sole message, and tools
plus `tool_choice` attached only when the `tools` argument is truthy
(Python's `if tools:` — `None` and the empty list attach nothing). -/
def AIGenerator.initial_api_params (g : AIGenerator) (query : String)
    (conversation_history : Option String) (tools : Option (List ToolDef)) :
    ApiParams :=
  let system_content :=
    if strTruthy conversation_history then
      SYSTEM_PROMPT ++ "\n\nPrevious conversation:\n" ++ conversation_history.getD ""
    else SYSTEM_PROMPT
  let toolsVal := tools.getD []
  mkApiParams g [⟨"user", MessageContent.text query⟩] system_content
    (if !toolsVal.isEmpty then some toolsVal else none)

/-- `AIGenerator.generate_response` (`ai_generator.py:67-108`): issues the
initial provider call and, when the response's stop reason is "tool_use" and
a tool manager was supplied, hands off to the tool loop; otherwise returns
`response.content[0].text`. -/
def AIGenerator.generate_response (g : AIGenerator) (query : String)
    (conversation_history : Option String) (tools : Option (List ToolDef))
    (tool_manager : Option (String → ToolInput → Except String String)) :
    RunTrace :=
  let api_params := g.initial_api_params query conversation_history tools
  let response := g.client api_params
  match tool_manager with
  | some ex =>
    if response.stop_reason = "tool_use" then
      let lp := g.execute_tool_loop ex response api_params
      ⟨lp.result, api_params :: lp.calls, lp.tool_calls⟩
    else
      ⟨firstText response.content, [api_params], []⟩
  | none => ⟨firstText response.content, [api_params], []⟩

/-! Concrete instances used by witnesses and counterexamples. -/

/-- A store whose searches come back empty and error-free and whose course
resolution always misses. -/
def demoStoreEmpty : VectorStore :=
  ⟨fun _ _ _ => ⟨[], [], [], none⟩, fun _ _ => none, fun _ => none,
    fun _ => Except.ok none⟩

/-- A store returning one (document, metadata) pair for course "C",
lesson 2, with a lesson link. -/
def demoStoreC2 : VectorStore :=
  ⟨fun _ _ _ => ⟨["doc"], [⟨some "C", some 2⟩], [0], none⟩,
    fun _ _ => some "L", fun _ => none, fun _ => Except.ok none⟩

/-- A store returning one pair for course "C", lesson 0. -/
def demoStoreL0 : VectorStore :=
  ⟨fun _ _ _ => ⟨["d0"], [⟨some "C", some 0⟩], [0], none⟩,
    fun _ _ => some "L0", fun _ => none, fun _ => Except.ok none⟩

/-- A store whose search reports the provider's course-resolution miss as an
error string. -/
def demoStoreErr : VectorStore :=
  ⟨fun _ _ _ => ⟨[], [], [], some "No course found matching 'Nonexistent'"⟩,
    fun _ _ => none, fun _ => none, fun _ => Except.ok none⟩

/-- A stale citation list left by an earlier execution. -/
def demoOldSources : List Source := [⟨"old", none⟩]

/-- A registry tool named "t" whose execution writes one citation. -/
def demoToolA : SimTool Unit :=
  ⟨⟨some "t", "a"⟩, fun _ => ("outA", some [⟨"srcA", none⟩]), []⟩

/-- A second tool also named "t", with a different output. -/
def demoToolB : SimTool Unit :=
  ⟨⟨some "t", "b"⟩, fun _ => ("outB", some [⟨"srcB", none⟩]), []⟩

/-- A manager holding `demoToolA` under its name. -/
def demoMgr : ToolManager Unit := ⟨[("t", demoToolA)]⟩

/-- A tool definition handed to the orchestrator demos. -/
def demoDef : ToolDef := ⟨some "t", ""⟩

/-- A provider that requests the tool "t" whenever tools are attached and
answers "done" otherwise: it drives the loop to its round cap. -/
def demoGen : AIGenerator :=
  ⟨"m", fun p =>
    if p.tools.isSome then ⟨"tool_use", [ContentBlock.tool_use "id1" "t" []]⟩
    else ⟨"end_turn", [ContentBlock.text "done"]⟩⟩

/-- A provider that answers with plain text at once. -/
def demoGenText : AIGenerator :=
  ⟨"m", fun _ => ⟨"end_turn", [ContentBlock.text "hi"]⟩⟩

/-- A tool executor that always succeeds. -/
def demoEx : String → ToolInput → Except String String :=
  fun _ _ => Except.ok "res"

/-- A tool executor that always raises, with message "boom". -/
def failEx : String → ToolInput → Except String String :=
  fun _ _ => Except.error "boom"

/-- The trace of the tool-capped demo conversation. -/
def demoTrace : RunTrace :=
  demoGen.generate_response "q" none (some [demoDef]) (some demoEx)

/-- A placeholder parameter set (only a `getD` default). -/
def junkParams : ApiParams := ⟨"", 0, 0, [], "", none, none⟩

/-- The third provider call of the demo conversation. -/
def demoP3 : ApiParams := demoTrace.calls.getD 2 junkParams

/-- A response content mixing two tool-use blocks and a text block. -/
def demoBlocks2 : List ContentBlock :=
  [ContentBlock.tool_use "a" "t1" [], ContentBlock.text "x",
   ContentBlock.tool_use "b" "t2" []]

/-! Registry lemmas. -/

/-- The registered names, in dict order. -/
def keysOf {α : Type} (l : List (String × SimTool α)) : List String :=
  l.map (·.1)

theorem lookup_dictInsert_self {α : Type} (l : List (String × SimTool α))
    (n : String) (t : SimTool α) : lookupTool (dictInsert l n t) n = some t := by
  induction l with
  | nil => simp [dictInsert, lookupTool]
  | cons hd tl ih =>
    obtain ⟨k, v⟩ := hd
    by_cases h : k = n
    · simp [dictInsert, lookupTool, h]
    · simp [dictInsert, lookupTool, h, ih]

theorem keys_dictInsert {α : Type} (l : List (String × SimTool α))
    (n : String) (t : SimTool α) :
    keysOf (dictInsert l n t) =
      if n ∈ keysOf l then keysOf l else keysOf l ++ [n] := by
  induction l with
  | nil => simp [dictInsert, keysOf]
  | cons hd tl ih =>
    obtain ⟨k, v⟩ := hd
    by_cases h : k = n
    · subst h
      simp [dictInsert, keysOf]
    · have hne : ¬n = k := fun hx => h hx.symm
      simp only [dictInsert, if_neg h, keysOf, List.map_cons] at ih ⊢
      rw [ih]
      by_cases hmem : n ∈ List.map (fun x => x.1) tl
      · simp [List.mem_cons, hmem, hne]
      · simp [List.mem_cons, hmem, hne]

theorem mem_keys_dictInsert {α : Type} (l : List (String × SimTool α))
    (n : String) (t : SimTool α) : n ∈ keysOf (dictInsert l n t) := by
  rw [keys_dictInsert]
  by_cases h : n ∈ keysOf l
  · simp [h]
  · simp [h]

theorem keys_dictInsert_mem {α : Type} (l : List (String × SimTool α))
    (n : String) (t : SimTool α) (h : n ∈ keysOf l) :
    keysOf (dictInsert l n t) = keysOf l := by
  rw [keys_dictInsert, if_pos h]

theorem nodup_keys_dictInsert {α : Type} (l : List (String × SimTool α))
    (n : String) (t : SimTool α) (h : (keysOf l).Nodup) :
    (keysOf (dictInsert l n t)).Nodup := by
  rw [keys_dictInsert]
  by_cases hmem : n ∈ keysOf l
  · simpa [hmem]
  · rw [if_neg hmem]
    refine h.append (List.nodup_singleton n) ?_
    intro a ha hb
    rw [List.mem_singleton] at hb
    subst hb
    exact hmem ha

theorem lookup_update_self {α : Type} (l : List (String × SimTool α))
    (n : String) (t t' : SimTool α) (h : lookupTool l n = some t) :
    lookupTool (updateTool l n t') n = some t' := by
  induction l with
  | nil => simp [lookupTool] at h
  | cons hd tl ih =>
    obtain ⟨k, v⟩ := hd
    by_cases hh : k = n
    · simp [updateTool, lookupTool, hh]
    · simp only [lookupTool, if_neg hh] at h
      simp only [updateTool, if_neg hh, lookupTool]
      exact ih h

theorem lookup_mem {α : Type} (l : List (String × SimTool α)) (n : String)
    (t : SimTool α) (h : lookupTool l n = some t) : (n, t) ∈ l := by
  induction l with
  | nil => simp [lookupTool] at h
  | cons hd tl ih =>
    obtain ⟨k, v⟩ := hd
    by_cases hh : k = n
    · simp only [lookupTool, if_pos hh] at h
      subst hh
      obtain rfl : v = t := by simpa using h
      exact List.mem_cons_self _ _
    · simp only [lookupTool, if_neg hh] at h
      exact List.mem_cons_of_mem _ (ih h)

theorem lookup_reset {α : Type} (m : ToolManager α) (n : String) :
    lookupTool m.reset_sources.tools n =
      (lookupTool m.tools n).map (fun t => { t with last_sources := [] }) := by
  obtain ⟨l⟩ := m
  induction l with
  | nil => simp [ToolManager.reset_sources, lookupTool]
  | cons hd tl ih =>
    obtain ⟨k, v⟩ := hd
    by_cases hh : k = n
    · simp [ToolManager.reset_sources, lookupTool, hh]
    · simpa [ToolManager.reset_sources, lookupTool, hh] using ih

theorem getFirstSources_reset {α : Type} (m : ToolManager α) :
    getFirstSources m.reset_sources.tools = [] := by
  obtain ⟨l⟩ := m
  induction l with
  | nil => simp [ToolManager.reset_sources, getFirstSources]
  | cons hd tl ih =>
    simpa [ToolManager.reset_sources, getFirstSources] using ih

theorem getFirstSources_ne_nil {α : Type} (l : List (String × SimTool α))
    (n : String) (t : SimTool α) (hmem : (n, t) ∈ l)
    (hne : t.last_sources ≠ []) : getFirstSources l ≠ [] := by
  induction l with
  | nil => simp at hmem
  | cons hd tl ih =>
    rcases List.mem_cons.mp hmem with h | h
    · obtain rfl : hd = (n, t) := h.symm
      simp only [getFirstSources]
      rw [if_neg (by simpa [List.isEmpty_iff] using hne)]
      exact hne
    · by_cases hh : hd.2.last_sources.isEmpty
      · simpa [getFirstSources, hh] using ih h
      · simp only [getFirstSources, if_neg hh]
        simpa [List.isEmpty_iff] using hh

theorem reset_keeps_entries {α : Type} (m : ToolManager α) (n : String)
    (t : SimTool α) (h : lookupTool m.tools n = some t) :
    lookupTool m.reset_sources.tools n = some { t with last_sources := [] } := by
  rw [lookup_reset, h]
  rfl

/-- C7. Round-trip over the registry: for any registered tool whose
execution populates a non-empty citation list, executing it, then calling
`ToolManager.reset_sources`, leaves `ToolManager.get_last_sources` empty;
executing the same tool again makes `get_last_sources` non-empty once
more. -/
theorem spec_C7 {α : Type} (m : ToolManager α) (n : String) (t : SimTool α)
    (a : α) (l : List Source)
    (hlook : lookupTool m.tools n = some t)
    (hrun : (t.run a).2 = some l) (hne : l ≠ []) :
    ((m.execute_tool n a).2.reset_sources).get_last_sources = [] ∧
    ((((m.execute_tool n a).2.reset_sources).execute_tool n a).2).get_last_sources ≠ [] := by
  constructor
  · exact getFirstSources_reset _
  · -- after executing: the tool's entry holds `{t with last_sources := l}`
    have hstep1 : (m.execute_tool n a).2.tools =
        updateTool m.tools n { t with last_sources := l } := by
      simp [ToolManager.execute_tool, hlook, hrun]
    have hlook1 : lookupTool (m.execute_tool n a).2.tools n =
        some { t with last_sources := l } := by
      rw [hstep1]
      exact lookup_update_self m.tools n t _ hlook
    -- after resetting: the entry holds `{t with last_sources := []}`
    have hlook2 : lookupTool ((m.execute_tool n a).2.reset_sources).tools n =
        some { t with last_sources := [] } :=
      reset_keeps_entries (m.execute_tool n a).2 n { t with last_sources := l } hlook1
    -- re-executing: the entry holds `{t with last_sources := l}` again
    set m2 := (m.execute_tool n a).2.reset_sources with hm2
    have hstep3 : (m2.execute_tool n a).2.tools =
        updateTool m2.tools n { t with last_sources := l } := by
      simp [ToolManager.execute_tool, hlook2, hrun]
    have hlook3 : lookupTool (m2.execute_tool n a).2.tools n =
        some { t with last_sources := l } := by
      rw [hstep3]
      exact lookup_update_self m2.tools n { t with last_sources := [] } _ hlook2
    have hmem : (n, ({ t with last_sources := l } : SimTool α)) ∈
        (m2.execute_tool n a).2.tools :=
      lookup_mem _ n _ hlook3
    exact getFirstSources_ne_nil _ n _ hmem (by simpa using hne)

/-- C7 witness: a concrete registry round-trip. -/
theorem spec_C7_witness :
    ((demoMgr.execute_tool "t" ()).2.reset_sources).get_last_sources = [] ∧
    ((((demoMgr.execute_tool "t" ()).2.reset_sources).execute_tool "t" ()).2).get_last_sources ≠ [] :=
  spec_C7 demoMgr "t" demoToolA () [⟨"srcA", none⟩] rfl rfl (by decide)

/-- C10. The registry maps each name to at most one tool: registering a tool
whose definition name equals an already-registered tool's name succeeds
silently and replaces the earlier tool, `execute_tool` then dispatches to
the newest holder of the name, the key set is unchanged by the replacement
and stays duplicate-free, and `get_tool_definitions` yields exactly one
definition per stored name. -/
theorem spec_C10 {α : Type} (m : ToolManager α) (t1 t2 : SimTool α)
    (n : String) (a : α)
    (h1 : t1.definition.name = some n) (h2 : t2.definition.name = some n)
    (hn : n.isEmpty = false) :
    ∃ m1 m2 : ToolManager α,
      m.register_tool t1 = Except.ok m1 ∧
      m1.register_tool t2 = Except.ok m2 ∧
      lookupTool m2.tools n = some t2 ∧
      (m2.execute_tool n a).1 = (t2.run a).1 ∧
      keysOf m2.tools = keysOf m1.tools ∧
      ((keysOf m.tools).Nodup → (keysOf m2.tools).Nodup) ∧
      m2.get_tool_definitions.length = (keysOf m2.tools).length := by
  refine ⟨⟨dictInsert m.tools n t1⟩, ⟨dictInsert (dictInsert m.tools n t1) n t2⟩,
    ?_, ?_, ?_, ?_, ?_, ?_, ?_⟩
  · simp [ToolManager.register_tool, h1, hn]
  · simp [ToolManager.register_tool, h2, hn]
  · exact lookup_dictInsert_self _ n t2
  · simp [ToolManager.execute_tool, lookup_dictInsert_self _ n t2]
  · exact keys_dictInsert_mem _ n t2 (mem_keys_dictInsert m.tools n t1)
  · intro hnd
    exact nodup_keys_dictInsert _ n t2 (nodup_keys_dictInsert m.tools n t1 hnd)
  · simp [ToolManager.get_tool_definitions, keysOf]

/-- C10 witness: registering two tools both named "t" replaces the first
with the second. -/
theorem spec_C10_witness :
    ∃ m1 m2 : ToolManager Unit,
      (⟨[]⟩ : ToolManager Unit).register_tool demoToolA = Except.ok m1 ∧
      m1.register_tool demoToolB = Except.ok m2 ∧
      lookupTool m2.tools "t" = some demoToolB ∧
      (m2.execute_tool "t" ()).1 = (demoToolB.run ()).1 ∧
      keysOf m2.tools = keysOf m1.tools ∧
      ((keysOf ([] : List (String × SimTool Unit))).Nodup → (keysOf m2.tools).Nodup) ∧
      m2.get_tool_definitions.length = (keysOf m2.tools).length :=
  spec_C10 ⟨[]⟩ demoToolA demoToolB "t" () rfl rfl rfl

/-- C4. A search whose result is one (document, metadata) pair with course
title "C" and lesson number 2 renders the header `[C - Lesson 2]` followed
on the next line by the document, and replaces the stored citation list
(whatever it held before) with exactly one entry whose text is
"C - Lesson 2" and whose link is the provider's lesson-link lookup for
("C", 2). -/
theorem spec_C4 (store : VectorStore) (st : List Source) (q : String)
    (cn : Option String) (ln : Option Int) (d : String) (dist : List Int)
    (h : store.search q cn ln = ⟨[d], [⟨some "C", some 2⟩], dist, none⟩) :
    CourseSearchTool.execute store st q cn ln =
      ("[C - Lesson 2]\n" ++ d,
       [⟨"C - Lesson 2", store.get_lesson_link "C" 2⟩]) := by
  simp [CourseSearchTool.execute, h, strTruthy, SearchResults.is_empty,
    CourseSearchTool.format_results, String.intercalate]
  exact ⟨rfl, rfl⟩

/-- C4 witness: concrete store, stale citations fully overwritten. -/
theorem spec_C4_witness :
    CourseSearchTool.execute demoStoreC2 demoOldSources "q" none none =
      ("[C - Lesson 2]\ndoc", [⟨"C - Lesson 2", some "L"⟩]) :=
  spec_C4 demoStoreC2 demoOldSources "q" none none "doc" [0] rfl

/-- C5 counterexample: on an empty, error-free search the code returns
"No relevant content found." (with a trailing period), not the exact string
"No relevant content found" the claim states. -/
theorem spec_C5_counterexample :
    (CourseSearchTool.execute demoStoreEmpty [] "q" none none).1 ≠
      "No relevant content found" := by
  decide

/-- C5 as amended: each synthesized empty-result message carries a trailing
period — "No relevant content found.", "No relevant content found in course
'X'.", and with a lesson filter the " in lesson 5" suffix is inserted after
the course suffix, before the final period. -/
theorem spec_C5 (store : VectorStore) (st : List Source) (q : String) :
    (store.search q none none = ⟨[], [], [], none⟩ →
      (CourseSearchTool.execute store st q none none).1 =
        "No relevant content found.") ∧
    (store.search q (some "X") none = ⟨[], [], [], none⟩ →
      (CourseSearchTool.execute store st q (some "X") none).1 =
        "No relevant content found in course 'X'.") ∧
    (store.search q (some "X") (some 5) = ⟨[], [], [], none⟩ →
      (CourseSearchTool.execute store st q (some "X") (some 5)).1 =
        "No relevant content found in course 'X' in lesson 5.") := by
  refine ⟨fun h => ?_, fun h => ?_, fun h => ?_⟩ <;>
    simp [CourseSearchTool.execute, h, strTruthy, intTruthy,
      SearchResults.is_empty] <;> rfl

/-- C5 witness: the three messages at a concrete store. -/
theorem spec_C5_witness :
    (CourseSearchTool.execute demoStoreEmpty [] "q" none none).1 =
      "No relevant content found." ∧
    (CourseSearchTool.execute demoStoreEmpty [] "q" (some "X") none).1 =
      "No relevant content found in course 'X'." ∧
    (CourseSearchTool.execute demoStoreEmpty [] "q" (some "X") (some 5)).1 =
      "No relevant content found in course 'X' in lesson 5." :=
  ⟨(spec_C5 demoStoreEmpty [] "q").1 rfl,
   (spec_C5 demoStoreEmpty [] "q").2.1 rfl,
   (spec_C5 demoStoreEmpty [] "q").2.2 rfl⟩

/-- C6 counterexample: a resolution miss leaves a previously populated
citation list in place, so the stored citation list is not empty afterward
when an earlier execution had filled it. -/
theorem spec_C6_counterexample :
    ¬ ((CourseOutlineTool.execute demoStoreEmpty demoOldSources "X").2 = []) := by
  decide

/-- C6 as amended: a resolution miss (course or lesson not found) raises no
fault: the outline tool returns "No course found matching '<courseName>'"
and the search tool returns the provider's miss message verbatim, and in
both cases the executing tool's stored citation list is left unchanged (in
particular it is still empty whenever it was empty before the call). -/
theorem spec_C6 (store : VectorStore) (st : List Source) :
    (∀ cn : String, strTruthy (store.resolve_course_name cn) = false →
      CourseOutlineTool.execute store st cn =
        ("No course found matching '" ++ cn ++ "'", st)) ∧
    (∀ (q : String) (cn : Option String) (ln : Option Int) (e : String),
      store.search q cn ln = ⟨[], [], [], some e⟩ → e.isEmpty = false →
      CourseSearchTool.execute store st q cn ln = (e, st)) := by
  constructor
  · intro cn h
    simp [CourseOutlineTool.execute, h]
  · intro q cn ln e h he
    simp [CourseSearchTool.execute, h, strTruthy, he]

/-- C6 witness: a concrete miss for each tool, citations untouched. -/
theorem spec_C6_witness :
    CourseOutlineTool.execute demoStoreEmpty [] "X" =
      ("No course found matching 'X'", []) ∧
    CourseSearchTool.execute demoStoreErr [] "q" (some "Nonexistent") none =
      ("No course found matching 'Nonexistent'", []) :=
  ⟨(spec_C6 demoStoreEmpty []).1 "X" rfl,
   (spec_C6 demoStoreErr []).2 "q" (some "Nonexistent") none
     "No course found matching 'Nonexistent'" rfl rfl⟩

/-- C9. With `lesson_number = 0`: an empty, error-free search yields a
message with no lesson suffix (0 is falsy to the `if lesson_number:` guard),
while a non-empty result whose metadata carries lesson number 0 does render
" - Lesson 0" in its header and in its citation text. -/
theorem spec_C9 (store : VectorStore) (st : List Source) (q : String)
    (cn : Option String) :
    (store.search q cn (some 0) = ⟨[], [], [], none⟩ →
      (CourseSearchTool.execute store st q cn (some 0)).1 =
        "No relevant content found" ++
          (if strTruthy cn then " in course '" ++ cn.getD "" ++ "'" else "") ++
          ".") ∧
    (∀ (d : String) (dist : List Int),
      store.search q cn (some 0) = ⟨[d], [⟨some "C", some 0⟩], dist, none⟩ →
      CourseSearchTool.execute store st q cn (some 0) =
        ("[C - Lesson 0]\n" ++ d,
         [⟨"C - Lesson 0", store.get_lesson_link "C" 0⟩])) := by
  constructor
  · intro h
    simp [CourseSearchTool.execute, h, strTruthy, intTruthy,
      SearchResults.is_empty]
  · intro d dist h
    simp [CourseSearchTool.execute, h, strTruthy, SearchResults.is_empty,
      CourseSearchTool.format_results, String.intercalate]
    exact ⟨rfl, rfl⟩

/-- C9 witness: both behaviors at concrete stores. -/
theorem spec_C9_witness :
    (CourseSearchTool.execute demoStoreEmpty [] "q" none (some 0)).1 =
      "No relevant content found." ∧
    CourseSearchTool.execute demoStoreL0 [] "q" none (some 0) =
      ("[C - Lesson 0]\nd0", [⟨"C - Lesson 0", some "L0"⟩]) :=
  ⟨(spec_C9 demoStoreEmpty [] "q" none).1 rfl,
   (spec_C9 demoStoreL0 [] "q" none).2 "d0" [0] rfl⟩

/-! Orchestrator lemmas. -/

theorem toolLoopAux_succ (g : AIGenerator)
    (ex : String → ToolInput → Except String String) (tools : List ToolDef)
    (system : String) (fuel : Nat) (msgs : List Message) (r : ModelResponse) :
    toolLoopAux g ex tools system (fuel + 1) msgs r =
      if hasToolUse r.content then
        let messages1 := msgs ++ [⟨"assistant", MessageContent.blocks r.content⟩]
        let ran := runTools ex r.content
        match ran.2 with
        | Except.error e =>
          ⟨Except.ok ("Tool execution failed: " ++ e), [], ran.1⟩
        | Except.ok tool_results =>
          let messages2 := messages1 ++
            (if tool_results.isEmpty then []
             else [⟨"user", MessageContent.tool_results tool_results⟩])
          let include_tools := decide (0 < fuel)
          let next_params := mkApiParams g messages2 system
            (if include_tools && !tools.isEmpty then some tools else none)
          let r2 := g.client next_params
          let rest := toolLoopAux g ex tools system fuel messages2 r2
          ⟨rest.result, next_params :: rest.calls, ran.1 ++ rest.tool_calls⟩
      else
        ⟨firstText r.content, [], []⟩ := rfl

theorem toolLoopAux_noTool (g : AIGenerator)
    (ex : String → ToolInput → Except String String) (tools : List ToolDef)
    (system : String) (fuel : Nat) (msgs : List Message) (r : ModelResponse)
    (h : hasToolUse r.content = false) :
    toolLoopAux g ex tools system (fuel + 1) msgs r =
      ⟨firstText r.content, [], []⟩ := by
  rw [toolLoopAux_succ]
  simp [h]

theorem toolLoopAux_err (g : AIGenerator)
    (ex : String → ToolInput → Except String String) (tools : List ToolDef)
    (system : String) (fuel : Nat) (msgs : List Message) (r : ModelResponse)
    (e : String) (h : hasToolUse r.content = true)
    (he : (runTools ex r.content).2 = Except.error e) :
    toolLoopAux g ex tools system (fuel + 1) msgs r =
      ⟨Except.ok ("Tool execution failed: " ++ e), [],
        (runTools ex r.content).1⟩ := by
  rw [toolLoopAux_succ]
  simp only [h, if_true]
  rw [he]

theorem toolLoopAux_ok (g : AIGenerator)
    (ex : String → ToolInput → Except String String) (tools : List ToolDef)
    (system : String) (fuel : Nat) (msgs : List Message) (r : ModelResponse)
    (trs : List ToolResultEntry) (h : hasToolUse r.content = true)
    (hok : (runTools ex r.content).2 = Except.ok trs) :
    toolLoopAux g ex tools system (fuel + 1) msgs r =
      (let messages2 := (msgs ++ [⟨"assistant", MessageContent.blocks r.content⟩]) ++
        (if trs.isEmpty then []
         else [⟨"user", MessageContent.tool_results trs⟩]);
       let next_params := mkApiParams g messages2 system
         (if decide (0 < fuel) && !tools.isEmpty then some tools else none);
       let rest := toolLoopAux g ex tools system fuel messages2 (g.client next_params);
       ⟨rest.result, next_params :: rest.calls,
        (runTools ex r.content).1 ++ rest.tool_calls⟩) := by
  rw [toolLoopAux_succ]
  simp only [h, if_true]
  rw [hok]

theorem toolLoopAux_calls_length (g : AIGenerator)
    (ex : String → ToolInput → Except String String) (tools : List ToolDef)
    (system : String) :
    ∀ (fuel : Nat) (msgs : List Message) (r : ModelResponse),
      (toolLoopAux g ex tools system fuel msgs r).calls.length ≤ fuel := by
  intro fuel
  induction fuel with
  | zero => intro msgs r; simp [toolLoopAux]
  | succ f ih =>
    intro msgs r
    by_cases h : hasToolUse r.content
    · rcases he : (runTools ex r.content).2 with e | trs
      · rw [toolLoopAux_err g ex tools system f msgs r e h he]
        simp
      · rw [toolLoopAux_ok g ex tools system f msgs r trs h he]
        simp only [List.length_cons]
        exact Nat.succ_le_succ (ih _ _)
    · rw [toolLoopAux_noTool g ex tools system f msgs r (by simpa using h)]
      simp

theorem toolLoopAux_one_toolfree (g : AIGenerator)
    (ex : String → ToolInput → Except String String) (tools : List ToolDef)
    (system : String) (msgs : List Message) (r : ModelResponse) :
    ∀ p ∈ (toolLoopAux g ex tools system 1 msgs r).calls,
      p.tools = none ∧ p.tool_choice = none := by
  intro p hp
  rw [show (1 : Nat) = 0 + 1 from rfl] at hp
  by_cases h : hasToolUse r.content
  · rcases he : (runTools ex r.content).2 with e | trs
    · rw [toolLoopAux_err g ex tools system 0 msgs r e h he] at hp
      simp at hp
    · rw [toolLoopAux_ok g ex tools system 0 msgs r trs h he] at hp
      simp only [toolLoopAux, decide_eq_true_eq] at hp
      have hp' : p = mkApiParams g
          ((msgs ++ [⟨"assistant", MessageContent.blocks r.content⟩]) ++
            (if trs.isEmpty then []
             else [⟨"user", MessageContent.tool_results trs⟩])) system none := by
        simpa using hp
      subst hp'
      exact ⟨rfl, rfl⟩
  · rw [toolLoopAux_noTool g ex tools system 0 msgs r (by simpa using h)] at hp
    simp at hp

theorem hasToolUse_iff (c : List ContentBlock) :
    hasToolUse c = true ↔ toolUses c ≠ [] := by
  induction c with
  | nil => simp [hasToolUse, toolUses]
  | cons hd tl ih =>
    cases hd with
    | text s => simpa [hasToolUse, toolUses] using ih
    | tool_use i n a => simp [hasToolUse, toolUses]

theorem runTools_success (ex : String → ToolInput → Except String String)
    (c : List ContentBlock)
    (hs : ∀ t ∈ toolUses c, exceptIsOk (ex t.name t.input) = true) :
    runTools ex c =
      ((toolUses c).map (fun t => (t.name, t.input)),
       Except.ok ((toolUses c).map
         (fun t => (⟨t.id, okText (ex t.name t.input)⟩ : ToolResultEntry)))) := by
  induction c with
  | nil => simp [runTools, toolUses]
  | cons hd tl ih =>
    cases hd with
    | text s =>
      simp only [toolUses] at hs ⊢
      simpa [runTools] using ih hs
    | tool_use id name input =>
      have hhd : exceptIsOk (ex name input) = true := by
        have := hs ⟨id, name, input⟩ (by simp [toolUses])
        simpa using this
      rcases hex : ex name input with e | out
      · rw [hex] at hhd; simp [exceptIsOk] at hhd
      · have htl : ∀ t ∈ toolUses tl, exceptIsOk (ex t.name t.input) = true := by
          intro t ht
          exact hs t (by simp [toolUses, ht])
        simp only [runTools, hex, toolUses, List.map_cons]
        rw [ih htl]
        simp [okText, hex]

theorem runTools_error (ex : String → ToolInput → Except String String)
    (post : List ContentBlock) (id n : String) (i : ToolInput) (e : String)
    (hfail : ex n i = Except.error e) :
    ∀ pre : List ContentBlock,
      (∀ t ∈ toolUses pre, exceptIsOk (ex t.name t.input) = true) →
      runTools ex (pre ++ ContentBlock.tool_use id n i :: post) =
        ((toolUses pre).map (fun t => (t.name, t.input)) ++ [(n, i)],
         Except.error e) := by
  intro pre
  induction pre with
  | nil =>
    intro _
    simp [runTools, toolUses, hfail]
  | cons hd tl ih =>
    intro hpre
    cases hd with
    | text s =>
      simp only [toolUses] at hpre
      simpa [runTools, toolUses] using ih hpre
    | tool_use id' n' i' =>
      have hhd : exceptIsOk (ex n' i') = true := by
        have := hpre ⟨id', n', i'⟩ (by simp [toolUses])
        simpa using this
      rcases hex : ex n' i' with e' | out
      · rw [hex] at hhd; simp [exceptIsOk] at hhd
      · have htl : ∀ t ∈ toolUses tl, exceptIsOk (ex t.name t.input) = true := by
          intro t ht
          exact hpre t (by simp [toolUses, ht])
        simp only [List.cons_append, runTools, hex, toolUses, List.map_cons,
          List.append_eq]
        rw [ih htl]

theorem toolLoopAux_one_shape (g : AIGenerator)
    (ex : String → ToolInput → Except String String) (tools : List ToolDef)
    (system : String) (msgs : List Message) (r : ModelResponse) :
    (toolLoopAux g ex tools system 1 msgs r).calls = [] ∨
    (∃ np, (toolLoopAux g ex tools system 1 msgs r).calls = [np] ∧
      np.tools = none ∧ np.tool_choice = none) := by
  rw [show (1 : Nat) = 0 + 1 from rfl]
  by_cases h : hasToolUse r.content
  · rcases he : (runTools ex r.content).2 with e | trs
    · rw [toolLoopAux_err g ex tools system 0 msgs r e h he]
      exact Or.inl rfl
    · rw [toolLoopAux_ok g ex tools system 0 msgs r trs h he]
      exact Or.inr ⟨_, rfl, rfl, rfl⟩
  · rw [toolLoopAux_noTool g ex tools system 0 msgs r (by simpa using h)]
    exact Or.inl rfl

theorem toolLoopAux_two_shape (g : AIGenerator)
    (ex : String → ToolInput → Except String String) (tools : List ToolDef)
    (system : String) (msgs : List Message) (r : ModelResponse) :
    (toolLoopAux g ex tools system 2 msgs r).calls = [] ∨
    (∃ np, (toolLoopAux g ex tools system 2 msgs r).calls = [np]) ∨
    (∃ np1 np2, (toolLoopAux g ex tools system 2 msgs r).calls = [np1, np2] ∧
      np2.tools = none ∧ np2.tool_choice = none) := by
  rw [show (2 : Nat) = 1 + 1 from rfl]
  by_cases h : hasToolUse r.content
  · rcases he : (runTools ex r.content).2 with e | trs
    · rw [toolLoopAux_err g ex tools system 1 msgs r e h he]
      exact Or.inl rfl
    · have hcalls : (toolLoopAux g ex tools system (1 + 1) msgs r).calls =
          mkApiParams g
            ((msgs ++ [⟨"assistant", MessageContent.blocks r.content⟩]) ++
              (if trs.isEmpty then []
               else [⟨"user", MessageContent.tool_results trs⟩])) system
            (if decide (0 < 1) && !tools.isEmpty then some tools else none) ::
          (toolLoopAux g ex tools system 1
            ((msgs ++ [⟨"assistant", MessageContent.blocks r.content⟩]) ++
              (if trs.isEmpty then []
               else [⟨"user", MessageContent.tool_results trs⟩]))
            (g.client (mkApiParams g
              ((msgs ++ [⟨"assistant", MessageContent.blocks r.content⟩]) ++
                (if trs.isEmpty then []
                 else [⟨"user", MessageContent.tool_results trs⟩])) system
              (if decide (0 < 1) && !tools.isEmpty then some tools
               else none)))).calls := by
        rw [toolLoopAux_ok g ex tools system 1 msgs r trs h he]
      rcases toolLoopAux_one_shape g ex tools system
          ((msgs ++ [⟨"assistant", MessageContent.blocks r.content⟩]) ++
            (if trs.isEmpty then []
             else [⟨"user", MessageContent.tool_results trs⟩]))
          (g.client (mkApiParams g
            ((msgs ++ [⟨"assistant", MessageContent.blocks r.content⟩]) ++
              (if trs.isEmpty then []
               else [⟨"user", MessageContent.tool_results trs⟩])) system
            (if decide (0 < 1) && !tools.isEmpty then some tools
             else none))) with h1 | ⟨np, hnp, ht, hc⟩
      · refine Or.inr (Or.inl ⟨mkApiParams g
          ((msgs ++ [⟨"assistant", MessageContent.blocks r.content⟩]) ++
            (if trs.isEmpty then []
             else [⟨"user", MessageContent.tool_results trs⟩])) system
          (if decide (0 < 1) && !tools.isEmpty then some tools else none), ?_⟩)
        rw [hcalls, h1]
      · refine Or.inr (Or.inr ⟨mkApiParams g
          ((msgs ++ [⟨"assistant", MessageContent.blocks r.content⟩]) ++
            (if trs.isEmpty then []
             else [⟨"user", MessageContent.tool_results trs⟩])) system
          (if decide (0 < 1) && !tools.isEmpty then some tools else none),
          np, ?_, ht, hc⟩)
        rw [hcalls, hnp]
  · rw [toolLoopAux_noTool g ex tools system 1 msgs r (by simpa using h)]
    exact Or.inl rfl

/-- C1. For every query, `generate_response` with `_execute_tool_loop`
issues at most 3 model-provider calls (1 initial plus up to 2 follow-ups),
and the 3rd call, when it occurs, carries neither tool definitions nor a
`tool_choice` parameter. -/
theorem spec_C1 (g : AIGenerator) (query : String) (hist : Option String)
    (tls : Option (List ToolDef))
    (tm : Option (String → ToolInput → Except String String)) :
    (g.generate_response query hist tls tm).calls.length ≤ 3 ∧
    (∀ (c1 c2 c3 : ApiParams) (rest : List ApiParams),
      (g.generate_response query hist tls tm).calls = c1 :: c2 :: c3 :: rest →
      c3.tools = none ∧ c3.tool_choice = none) := by
  cases tm with
  | none =>
    constructor
    · simp [AIGenerator.generate_response]
    · intro c1 c2 c3 rest hc
      simp [AIGenerator.generate_response] at hc
  | some ex =>
    by_cases hsr :
      (g.client (g.initial_api_params query hist tls)).stop_reason = "tool_use"
    · simp only [AIGenerator.generate_response, hsr, if_pos rfl,
        AIGenerator.execute_tool_loop, if_true]
      constructor
      · simp only [List.length_cons]
        have := toolLoopAux_calls_length g ex
          ((g.initial_api_params query hist tls).tools.getD [])
          (g.initial_api_params query hist tls).system 2
          (g.initial_api_params query hist tls).messages
          (g.client (g.initial_api_params query hist tls))
        omega
      · intro c1 c2 c3 rest hc
        rcases toolLoopAux_two_shape g ex
            ((g.initial_api_params query hist tls).tools.getD [])
            (g.initial_api_params query hist tls).system
            (g.initial_api_params query hist tls).messages
            (g.client (g.initial_api_params query hist tls)) with
          h0 | ⟨np, hnp⟩ | ⟨np1, np2, hnp, ht, htc⟩
        · rw [h0] at hc
          simp at hc
        · rw [hnp] at hc
          simp at hc
        · rw [hnp] at hc
          simp only [List.cons.injEq] at hc
          obtain ⟨-, -, h3, -⟩ := hc
          rw [← h3]
          exact ⟨ht, htc⟩
    · constructor
      · simp [AIGenerator.generate_response, hsr]
      · intro c1 c2 c3 rest hc
        simp [AIGenerator.generate_response, hsr] at hc

/-- C1 witness: a conversation that reaches all 3 calls; the 3rd call
carries no tools and no tool_choice. -/
theorem spec_C1_witness : demoP3.tools = none ∧ demoP3.tool_choice = none :=
  (spec_C1 demoGen "q" none (some [demoDef]) (some demoEx)).2
    (demoTrace.calls.getD 0 junkParams) (demoTrace.calls.getD 1 junkParams)
    demoP3 [] rfl

/-- C2. A tool exception mid-round makes the loop return
"Tool execution failed: " plus the message at once — no further provider
call, and no tool-call request after the faulting one is executed — and the
orchestrator as a whole then returns that text after exactly the one
initial provider call. -/
theorem spec_C2 (g : AIGenerator)
    (ex : String → ToolInput → Except String String) (tools : List ToolDef)
    (system : String) (fuel : Nat) (msgs : List Message)
    (pre post : List ContentBlock) (id n : String) (i : ToolInput) (e : String)
    (r : ModelResponse)
    (hpre : ∀ t ∈ toolUses pre, exceptIsOk (ex t.name t.input) = true)
    (hfail : ex n i = Except.error e)
    (hr : r.content = pre ++ ContentBlock.tool_use id n i :: post) :
    toolLoopAux g ex tools system (fuel + 1) msgs r =
      ⟨Except.ok ("Tool execution failed: " ++ e), [],
        (toolUses pre).map (fun t => (t.name, t.input)) ++ [(n, i)]⟩ ∧
    (∀ (query : String) (hist : Option String) (tls : Option (List ToolDef)),
      (g.client (g.initial_api_params query hist tls)).stop_reason = "tool_use" →
      (g.client (g.initial_api_params query hist tls)).content =
        pre ++ ContentBlock.tool_use id n i :: post →
      g.generate_response query hist tls (some ex) =
        ⟨Except.ok ("Tool execution failed: " ++ e),
         [g.initial_api_params query hist tls],
         (toolUses pre).map (fun t => (t.name, t.input)) ++ [(n, i)]⟩) := by
  have hrt := runTools_error ex post id n i e hfail pre hpre
  have key : ∀ (tools' : List ToolDef) (system' : String) (fuel' : Nat)
      (msgs' : List Message) (r' : ModelResponse),
      r'.content = pre ++ ContentBlock.tool_use id n i :: post →
      toolLoopAux g ex tools' system' (fuel' + 1) msgs' r' =
        ⟨Except.ok ("Tool execution failed: " ++ e), [],
          (toolUses pre).map (fun t => (t.name, t.input)) ++ [(n, i)]⟩ := by
    intro tools' system' fuel' msgs' r' hr'
    have hhas : hasToolUse r'.content = true := by
      rw [hr', hasToolUse_iff]
      intro hc
      have : (⟨id, n, i⟩ : ToolUseBlock) ∈ toolUses
          (pre ++ ContentBlock.tool_use id n i :: post) := by
        clear hc hrt hpre hr hr'
        induction pre with
        | nil => simp [toolUses]
        | cons hd tl ih =>
          cases hd with
          | text s => simpa [toolUses] using ih
          | tool_use a b c => simp [toolUses, ih]
      rw [hc] at this
      simp at this
    have herr : (runTools ex r'.content).2 = Except.error e := by
      rw [hr', hrt]
    rw [toolLoopAux_err g ex tools' system' fuel' msgs' r' e hhas herr]
    rw [hr', hrt]
  refine ⟨key tools system fuel msgs r hr, ?_⟩
  intro query hist tls hsr hcontent
  simp only [AIGenerator.generate_response, hsr, if_pos rfl,
    AIGenerator.execute_tool_loop]
  rw [show (2 : Nat) = 1 + 1 from rfl]
  rw [key _ _ 1 _ _ hcontent]
  simp

/-- C2 witness: a concrete run whose only tool raises "boom". -/
theorem spec_C2_witness :
    demoGen.generate_response "q" none (some [demoDef]) (some failEx) =
      ⟨Except.ok "Tool execution failed: boom",
       [demoGen.initial_api_params "q" none (some [demoDef])], [("t", [])]⟩ :=
  (spec_C2 demoGen failEx [] "" 0 [] [] [] "id1" "t" [] "boom"
    ⟨"tool_use", [ContentBlock.tool_use "id1" "t" []]⟩
    (by simp [toolUses]) rfl rfl).2 "q" none (some [demoDef]) rfl rfl

/-- C3. A model response with N tool-use blocks (N at least 1, all
executions succeeding) yields exactly N `execute_tool` invocations, in block
order, and the round appends exactly one user message holding the N
tool results in the same order, each carrying its originating block's
`tool_use_id`; the next provider call's transcript is exactly the old one
plus the assistant message and that single user message. -/
theorem spec_C3 (g : AIGenerator)
    (ex : String → ToolInput → Except String String) (tools : List ToolDef)
    (system : String) (fuel : Nat) (msgs : List Message) (r : ModelResponse)
    (hN : toolUses r.content ≠ [])
    (hs : ∀ t ∈ toolUses r.content, exceptIsOk (ex t.name t.input) = true) :
    runTools ex r.content =
      ((toolUses r.content).map (fun t => (t.name, t.input)),
       Except.ok ((toolUses r.content).map
         (fun t => (⟨t.id, okText (ex t.name t.input)⟩ : ToolResultEntry)))) ∧
    toolLoopAux g ex tools system (fuel + 1) msgs r =
      (let results := (toolUses r.content).map
         (fun t => (⟨t.id, okText (ex t.name t.input)⟩ : ToolResultEntry));
       let messages2 := msgs ++ [⟨"assistant", MessageContent.blocks r.content⟩,
         ⟨"user", MessageContent.tool_results results⟩];
       let next_params := mkApiParams g messages2 system
         (if decide (0 < fuel) && !tools.isEmpty then some tools else none);
       let rest := toolLoopAux g ex tools system fuel messages2 (g.client next_params);
       ⟨rest.result, next_params :: rest.calls,
        (toolUses r.content).map (fun t => (t.name, t.input)) ++ rest.tool_calls⟩) := by
  have hrt := runTools_success ex r.content hs
  refine ⟨hrt, ?_⟩
  have hhas : hasToolUse r.content = true := (hasToolUse_iff r.content).mpr hN
  have hne : ((toolUses r.content).map
      (fun t => (⟨t.id, okText (ex t.name t.input)⟩ : ToolResultEntry))).isEmpty = false := by
    simp [List.isEmpty_iff, hN]
  rw [toolLoopAux_ok g ex tools system fuel msgs r _ hhas (by rw [hrt])]
  simp only [hne, if_neg, Bool.false_eq_true, hrt, List.append_assoc,
    List.cons_append, List.nil_append]
  rfl

/-- C3 witness: two tool-use blocks around a text block give two executions
and two correlated results, in order. -/
theorem spec_C3_witness :
    runTools demoEx demoBlocks2 =
      ([("t1", []), ("t2", [])],
       Except.ok [⟨"a", "res"⟩, ⟨"b", "res"⟩]) :=
  (spec_C3 demoGen demoEx [] "" 0 [] ⟨"tool_use", demoBlocks2⟩
    (by decide) (by decide)).1

/-- C8. When the first model response contains no tool-use block, the
orchestrator makes exactly one provider call, returns that response's text
unchanged, and the transcript it ever sent is the single user message
holding the query. -/
theorem spec_C8 (g : AIGenerator) (query : String) (hist : Option String)
    (tls : Option (List ToolDef))
    (tm : Option (String → ToolInput → Except String String))
    (h : hasToolUse (g.client (g.initial_api_params query hist tls)).content
      = false) :
    g.generate_response query hist tls tm =
      ⟨firstText (g.client (g.initial_api_params query hist tls)).content,
       [g.initial_api_params query hist tls], []⟩ ∧
    (g.initial_api_params query hist tls).messages =
      [⟨"user", MessageContent.text query⟩] := by
  refine ⟨?_, rfl⟩
  cases tm with
  | none => simp [AIGenerator.generate_response]
  | some ex =>
    by_cases hsr :
      (g.client (g.initial_api_params query hist tls)).stop_reason = "tool_use"
    · simp only [AIGenerator.generate_response, hsr, if_pos rfl,
        AIGenerator.execute_tool_loop]
      rw [show (2 : Nat) = 1 + 1 from rfl]
      rw [toolLoopAux_noTool _ _ _ _ 1 _ _ h]
      simp
    · simp [AIGenerator.generate_response, hsr]

/-- C8 witness: a text-only first response gives one call and the text
back. -/
theorem spec_C8_witness :
    demoGenText.generate_response "q" none none none =
      ⟨Except.ok "hi", [demoGenText.initial_api_params "q" none none], []⟩ ∧
    (demoGenText.initial_api_params "q" none none).messages =
      [⟨"user", MessageContent.text "q"⟩] :=
  spec_C8 demoGenText "q" none none none rfl

end RagCore
